import Mathlib

/-!
Shallow embedding of the slide-assembly logic of src/presentai.py.

Python strings are modelled as lists of characters (PyStr).  The Python
string methods used by the source (split, strip, startswith, lstrip,
int(_, 16)) are modelled faithfully below, and the slide-building
functions of the source are translated on top of them.  Decks are lists
of slide values; a content slide holds the list of paragraphs produced
by the body loop of create_content_slide, each paragraph carrying its
emitted text, indent level and bold flag.  The source splits only on the
two concrete separators of the program, the double line break and the
single line break, so the split is modelled by two structurally
recursive functions, one for a two-character separator and one for a
one-character separator, both with the left-to-right non-overlapping
semantics of Python str.split.
-/

/-- A Python string, modelled as its list of characters. -/
abbrev PyStr := List Char

/-- Python s.startswith(pre): pre is an initial segment of s. -/
def py_startswith (pre s : PyStr) : Bool :=
  decide (s.take pre.length = pre)

/-- The whitespace characters stripped by Python str.strip() (ASCII range). -/
def pyIsSpace (c : Char) : Bool :=
  c == ' ' || c == '\t' || c == '\n' || c == '\r' || c == '\x0b' || c == '\x0c'

/-- Removal of leading characters satisfying p (left half of str.strip()). -/
def pyDropLeft (p : Char → Bool) (s : PyStr) : PyStr :=
  s.dropWhile p

/-- Removal of trailing characters satisfying p (right half of str.strip()). -/
def pyDropRight (p : Char → Bool) (s : PyStr) : PyStr :=
  (s.reverse.dropWhile p).reverse

/-- Python s.strip(): remove leading and trailing whitespace. -/
def pyStrip (s : PyStr) : PyStr :=
  pyDropRight pyIsSpace (pyDropLeft pyIsSpace s)

/-- Python s.split(sep) for the two-character separator sep = [a, b]:
scan left to right, cut at each leftmost occurrence of the separator.
The empty string yields the single-element list holding the empty
string, as in Python. -/
def pySplit2 (a b : Char) : PyStr → List PyStr
  | [] => [[]]
  | [c] => [[c]]
  | c1 :: c2 :: rest =>
    if c1 = a ∧ c2 = b then
      [] :: pySplit2 a b rest
    else
      match pySplit2 a b (c2 :: rest) with
      | [] => [[c1]]
      | h :: t => (c1 :: h) :: t

/-- Python s.split(sep) for a one-character separator sep = [a]. -/
def pySplit1 (a : Char) : PyStr → List PyStr
  | [] => [[]]
  | c :: rest =>
    if c = a then
      [] :: pySplit1 a rest
    else
      match pySplit1 a rest with
      | [] => [[c]]
      | h :: t => (c :: h) :: t

/-- Python sep.join(parts). -/
def pyJoin (sep : PyStr) : List PyStr → PyStr
  | [] => []
  | [x] => x
  | x :: xs => x ++ sep ++ pyJoin sep xs

/-- Number of leftmost non-overlapping occurrences of the two-character
separator [a, b] in a string; pySplit2 cuts at exactly these places. -/
def pyCountSep2 (a b : Char) : PyStr → Nat
  | [] => 0
  | [_] => 0
  | c1 :: c2 :: rest =>
    if c1 = a ∧ c2 = b then
      pyCountSep2 a b rest + 1
    else
      pyCountSep2 a b (c2 :: rest)

/-- Value of a single hexadecimal digit, as accepted by Python int(_, 16). -/
def hexDigitVal (c : Char) : Option Nat :=
  if '0' ≤ c ∧ c ≤ '9' then some (c.toNat - '0'.toNat)
  else if 'a' ≤ c ∧ c ≤ 'f' then some (c.toNat - 'a'.toNat + 10)
  else if 'A' ≤ c ∧ c ≤ 'F' then some (c.toNat - 'A'.toNat + 10)
  else none

/-- Accumulator loop for pyIntHex. -/
def pyIntHexAux (acc : Nat) : PyStr → Option Nat
  | [] => some acc
  | c :: rest =>
    match hexDigitVal c with
    | some d => pyIntHexAux (16 * acc + d) rest
    | none => none

/-- Python int(s, 16) on a plain digit string: none models the ValueError
raised on an empty slice or a non-hexadecimal character. -/
def pyIntHex : PyStr → Option Nat
  | [] => none
  | c :: rest => pyIntHexAux 0 (c :: rest)

/-- The semantic color roles of the color_scheme mapping. -/
inductive Role
  | primary
  | secondary
  | text
  | background
deriving DecidableEq

/-- The color_scheme mapping of the source, line 19: a constant table,
built once at module load and only read afterwards. -/
def color_scheme : Role → PyStr
  | Role.primary => ("#0070C0").data
  | Role.secondary => ("#FFC000").data
  | Role.text => ("#404040").data
  | Role.background => ("#F8F8F8").data

/-- hex_to_rgb of the source, line 30: strip leading hash characters
(str.lstrip with an argument removes every leading occurrence), then
parse the slices [0:2], [2:4], [4:6] as hexadecimal integers.  none
models the ValueError a malformed string would raise. -/
def hex_to_rgb (hex_color : PyStr) : Option (Nat × Nat × Nat) :=
  let h := pyDropLeft (fun c => c == '#') hex_color
  match pyIntHex ((h.drop 0).take 2), pyIntHex ((h.drop 2).take 2),
      pyIntHex ((h.drop 4).take 2) with
  | some r, some g, some b => some (r, g, b)
  | _, _, _ => none

/-- One paragraph added to a content slide body: the emitted text, the
indent level and the bold flag set by the loop in create_content_slide. -/
structure Paragraph where
  text : PyStr
  level : Nat
  bold : Bool
deriving DecidableEq

/-- A slide specification: the title slide of create_title_slide, or a
content slide of create_content_slide with its heading and body. -/
inductive Slide
  | title (heading subtitle : PyStr)
  | content (heading : PyStr) (body : List Paragraph)
deriving DecidableEq

/-- The body of the per-line loop of create_content_slide, lines 126-139:
the paragraph text is line.strip(); a line that starts with the bullet
glyph gets level 1, else a line that starts with a hyphen gets level 2,
else level 0 and bold.  The startswith tests are on the raw line, not on
the stripped text. -/
def add_paragraph_line (line : PyStr) : Paragraph :=
  if py_startswith ['•'] line then
    { text := pyStrip line, level := 1, bold := false }
  else if py_startswith ['-'] line then
    { text := pyStrip line, level := 2, bold := false }
  else
    { text := pyStrip line, level := 0, bold := true }

/-- create_title_slide of the source, line 93, as a deck value. -/
def create_title_slide (heading subtitle : PyStr) : Slide :=
  Slide.title heading subtitle

/-- create_content_slide of the source, line 110: the body is
content.split of the single line break, each line passed through the
paragraph loop. -/
def create_content_slide (heading content : PyStr) : Slide :=
  Slide.content heading ((pySplit1 '\n' content).map add_paragraph_line)

/-- The fixed slide_types list of generate_presentation, lines 168-179. -/
def slide_types : List PyStr :=
  [("Introduction").data,
   ("Agenda Overview").data,
   ("Key Point 1").data,
   ("Key Point 2").data,
   ("Key Point 3").data,
   ("Supporting Data").data,
   ("Case Study").data,
   ("Conclusion").data,
   ("Next Steps").data,
   ("Q&A").data]

/-- The enumerate loop of generate_presentation, lines 205-208: for each
candidate at index i, a content slide is created only when i is below
the length of slide_types, labeled with slide_types at i. -/
def slidesLoop (i : Nat) : List PyStr → List Slide
  | [] => []
  | content :: rest =>
    (if i < slide_types.length then
      [create_content_slide (slide_types.getD i []) content]
    else []) ++ slidesLoop (i + 1) rest

/-- generate_content of the source, line 57, with the network call
modelled as an explicit outcome: ok holds the message content the API
returned, error holds str(e) for the exception e it raised.  The result
is the returned string paired with the list of messages put on the
terminal_output queue; the function is total, so no exception escapes. -/
def generate_content (prompt : PyStr) (outcome : Except PyStr PyStr) :
    PyStr × List PyStr :=
  let log0 := [("Generating content with OpenAI").data]
  match outcome with
  | Except.ok content => (pyStrip content, log0)
  | Except.error e =>
    let error_message := ("Error generating content: ").data ++ e
    (error_message, log0 ++ [error_message])

/-- The deck built by generate_presentation, lines 200-208, from the
agenda and the text block the crew returned: the title slide with the
decorated agenda and the fixed subtitle, then the content slides of the
enumerate loop over result.split of the double line break. -/
def generate_presentation (agenda result : PyStr) : List Slide :=
  create_title_slide ('📊' :: ' ' :: agenda)
      (("An AI-Generated Presentation").data) ::
    slidesLoop 0 (pySplit2 '\n' '\n' result)

/-- Python split never returns an empty list: even the empty string
splits into the one-element list holding the empty string. -/
theorem pySplit2_ne_nil (a b : Char) (s : PyStr) : pySplit2 a b s ≠ [] := by
  match s with
  | [] => simp [pySplit2]
  | [c] => simp [pySplit2]
  | c1 :: c2 :: rest =>
    simp only [pySplit2]
    split
    · exact List.cons_ne_nil _ _
    · split
      · exact List.cons_ne_nil _ _
      · exact List.cons_ne_nil _ _

/-- Prepending a character to the first part prepends it to the join. -/
theorem pyJoin_cons_cons (sep : PyStr) (c : Char) (h : PyStr)
    (t : List PyStr) :
    pyJoin sep ((c :: h) :: t) = c :: pyJoin sep (h :: t) := by
  cases t with
  | nil => rfl
  | cons y ys => simp [pyJoin, List.cons_append]

/-- Joining the parts of pySplit2 with the separator restores the
original string. -/
theorem pyJoin_pySplit2 (a b : Char) : ∀ s : PyStr,
    pyJoin [a, b] (pySplit2 a b s) = s
  | [] => by simp [pySplit2, pyJoin]
  | [c] => by simp [pySplit2, pyJoin]
  | c1 :: c2 :: rest => by
    have ih1 := pyJoin_pySplit2 a b rest
    have ih2 := pyJoin_pySplit2 a b (c2 :: rest)
    simp only [pySplit2]
    split
    · rename_i hab
      obtain ⟨ha, hb⟩ := hab
      cases hsp : pySplit2 a b rest with
      | nil => exact absurd hsp (pySplit2_ne_nil a b rest)
      | cons h t =>
        rw [hsp] at ih1
        simp [pyJoin, ha, hb, ih1]
    · cases hsp : pySplit2 a b (c2 :: rest) with
      | nil => exact absurd hsp (pySplit2_ne_nil a b (c2 :: rest))
      | cons h t =>
        rw [hsp] at ih2
        show pyJoin [a, b] ((c1 :: h) :: t) = c1 :: c2 :: rest
        rw [pyJoin_cons_cons]
        rw [ih2]

/-- The number of parts of pySplit2 is the number of separator
occurrences plus one. -/
theorem length_pySplit2 (a b : Char) : ∀ s : PyStr,
    (pySplit2 a b s).length = pyCountSep2 a b s + 1
  | [] => by simp [pySplit2, pyCountSep2]
  | [c] => by simp [pySplit2, pyCountSep2]
  | c1 :: c2 :: rest => by
    have ih1 := length_pySplit2 a b rest
    have ih2 := length_pySplit2 a b (c2 :: rest)
    simp only [pySplit2, pyCountSep2]
    by_cases hab : c1 = a ∧ c2 = b
    · rw [if_pos hab, if_pos hab]
      simp [ih1]
    · rw [if_neg hab, if_neg hab]
      cases hsp : pySplit2 a b (c2 :: rest) with
      | nil => exact absurd hsp (pySplit2_ne_nil a b (c2 :: rest))
      | cons h t =>
        rw [hsp] at ih2
        show ((c1 :: h) :: t).length = pyCountSep2 a b (c2 :: rest) + 1
        simpa using ih2

/-- The enumerate loop of generate_presentation pairs candidates with
labels positionally, like zipWith over the label list dropped at the
loop's start index. -/
theorem slidesLoop_eq_zipWith : ∀ (cands : List PyStr) (i : Nat),
    slidesLoop i cands
      = List.zipWith create_content_slide (slide_types.drop i) cands
  | [], i => by simp [slidesLoop]
  | content :: rest, i => by
    have ih := slidesLoop_eq_zipWith rest (i + 1)
    simp only [slidesLoop]
    by_cases h : i < slide_types.length
    · rw [if_pos h, List.getD_eq_getElem slide_types [] h,
        List.singleton_append, ih, List.drop_eq_getElem_cons h,
        List.zipWith_cons_cons]
    · rw [if_neg h]
      have h10 : slide_types.length ≤ i := Nat.le_of_not_lt h
      rw [List.drop_eq_nil_of_le h10]
      rw [List.drop_eq_nil_of_le (Nat.le_succ_of_le h10)] at ih
      simpa using ih

/-- Dropping a prefix by a predicate the final element fails keeps that
final element at the end. -/
theorem dropWhile_append_singleton (p : Char → Bool) (c : Char)
    (hc : p c = false) : ∀ l : PyStr, ∃ t : PyStr,
      List.dropWhile p (l ++ [c]) = t ++ [c]
  | [] => ⟨[], by simp [List.dropWhile_cons, hc]⟩
  | x :: l => by
    rcases dropWhile_append_singleton p c hc l with ⟨t, ht⟩
    by_cases hx : p x = true
    · exact ⟨t, by simp [List.dropWhile_cons, hx, ht]⟩
    · exact ⟨x :: l, by simp [List.dropWhile_cons, hx]⟩

/-- Stripping a string whose first character is not whitespace keeps
that first character in front. -/
theorem exists_pyStrip_cons (c : Char) (hc : pyIsSpace c = false)
    (rest : PyStr) : ∃ t : PyStr, pyStrip (c :: rest) = c :: t := by
  unfold pyStrip pyDropLeft pyDropRight
  rw [List.dropWhile_cons, if_neg (by simp [hc])]
  rcases dropWhile_append_singleton pyIsSpace c hc rest.reverse with ⟨t, ht⟩
  refine ⟨t.reverse, ?_⟩
  rw [List.reverse_cons, ht, List.reverse_append]
  rfl

/-- The paragraph text is always the stripped line, whatever branch of
the classification fires. -/
theorem text_add_paragraph_line (line : PyStr) :
    (add_paragraph_line line).text = pyStrip line := by
  unfold add_paragraph_line
  split
  · rfl
  · split
    · rfl
    · rfl

/-- A string that starts with the one-character string [c] is a cons
headed by c. -/
theorem eq_cons_of_py_startswith (c : Char) (s : PyStr)
    (h : py_startswith [c] s = true) : ∃ t : PyStr, s = c :: t := by
  cases s with
  | nil => simp [py_startswith] at h
  | cons x t =>
    refine ⟨t, ?_⟩
    simp only [py_startswith, List.length_cons, List.length_nil,
      List.take_succ_cons, List.take_zero, decide_eq_true_eq,
      List.cons.injEq, and_true] at h
    rw [h]

example : pySplit2 '\n' '\n' ("a\n\nb\n\nc").data = [['a'], ['b'], ['c']] := by decide
example : pySplit2 '\n' '\n' [] = [[]] := by decide
example : pySplit2 '\n' '\n' ("a\n\n\n").data = [['a'], ['\n']] := by decide
example : pySplit1 '\n' ("a\nb").data = [['a'], ['b']] := by decide
example : pyStrip ("  hi  ").data = ('h' :: ['i']) := by decide
example : pyCountSep2 '\n' '\n' ("a\n\nb\n\nc").data = 2 := by decide
example : hex_to_rgb (("#0070C0").data) = some (0, 112, 192) := by decide
example : hex_to_rgb (("FFC000").data) = some (255, 192, 0) := by decide
example :
    generate_presentation (("T").data) (("a\n\nb").data) =
      [Slide.title ('📊' :: ' ' :: ['T']) (("An AI-Generated Presentation").data),
       Slide.content (("Introduction").data) [⟨['a'], 0, true⟩],
       Slide.content (("Agenda Overview").data) [⟨['b'], 0, true⟩]] := by
  decide

/-- Claim C1: the assembler pairs each double-line-break candidate, in
order, with the label at the same position of the fixed ten-element
slide_types list; the deck holds one title slide plus one content slide
per candidate up to the length of the label list, so with fewer than
ten candidates trailing labels are unused and with more than ten the
excess candidates are dropped. -/
theorem claim1_label_pairing (agenda result : PyStr) :
    slide_types.length = 10 ∧
    (generate_presentation agenda result).length
      = 1 + min (pySplit2 '\n' '\n' result).length 10 ∧
    ∀ i : Nat, i < min (pySplit2 '\n' '\n' result).length 10 →
      List.getD (generate_presentation agenda result) (i + 1)
          (Slide.title [] [])
        = create_content_slide (slide_types.getD i [])
            ((pySplit2 '\n' '\n' result).getD i []) := by
  have hlen : slide_types.length = 10 := by decide
  have hdeck : generate_presentation agenda result
      = Slide.title ('📊' :: ' ' :: agenda)
          (("An AI-Generated Presentation").data)
        :: List.zipWith create_content_slide slide_types
            (pySplit2 '\n' '\n' result) := by
    unfold generate_presentation create_title_slide
    rw [slidesLoop_eq_zipWith, List.drop_zero]
  refine ⟨hlen, ?_, ?_⟩
  · rw [hdeck]
    simp [List.length_zipWith, hlen, Nat.min_comm]
    omega
  · intro i hi
    have hi1 : i < (pySplit2 '\n' '\n' result).length :=
      lt_of_lt_of_le hi (min_le_left _ _)
    have hi2 : i < slide_types.length := by
      rw [hlen]; exact lt_of_lt_of_le hi (min_le_right _ _)
    have hiz : i < (List.zipWith create_content_slide slide_types
        (pySplit2 '\n' '\n' result)).length := by
      rw [List.length_zipWith]
      exact lt_min hi2 hi1
    rw [hdeck, List.getD_cons_succ, List.getD_eq_getElem _ _ hiz,
      List.getElem_zipWith, List.getD_eq_getElem _ _ hi2,
      List.getD_eq_getElem _ _ hi1]

/-- Claim C1 witness: a content block with twelve candidates yields a
deck of eleven slides, and candidate nine is paired with the tenth
label; the last two candidates are dropped. -/
theorem claim1_label_pairing_witness :
    9 < min (pySplit2 '\n' '\n'
        (("c0\n\nc1\n\nc2\n\nc3\n\nc4\n\nc5\n\nc6\n\nc7\n\nc8\n\nc9\n\nc10\n\nc11").data)).length
      10 ∧
    List.getD
        (generate_presentation (("T").data)
          (("c0\n\nc1\n\nc2\n\nc3\n\nc4\n\nc5\n\nc6\n\nc7\n\nc8\n\nc9\n\nc10\n\nc11").data))
        10 (Slide.title [] [])
      = create_content_slide (slide_types.getD 9 [])
          ((pySplit2 '\n' '\n'
            (("c0\n\nc1\n\nc2\n\nc3\n\nc4\n\nc5\n\nc6\n\nc7\n\nc8\n\nc9\n\nc10\n\nc11").data)).getD
            9 []) :=
  ⟨by decide,
    (claim1_label_pairing (("T").data)
      (("c0\n\nc1\n\nc2\n\nc3\n\nc4\n\nc5\n\nc6\n\nc7\n\nc8\n\nc9\n\nc10\n\nc11").data)).2.2
      9 (by decide)⟩

/-- Claim C2 counterexample: on the line built of two spaces, a bullet
glyph, a space and the letter x, the line after trimming whitespace
starts with the bullet glyph, yet the code assigns level 0 and bold,
because the startswith tests of create_content_slide run on the raw
line, not on the trimmed one; the claim predicts level 1. -/
theorem claim2_counterexample :
    py_startswith ['•'] (pyStrip (("  • x").data)) = true ∧
    (add_paragraph_line (("  • x").data)).level = 0 ∧
    (add_paragraph_line (("  • x").data)).bold = true := by
  decide

/-- Claim C2 amended: the indent level is decided by the leading
character of the raw line, before any whitespace trimming, first match
wins: a raw line starting with the bullet glyph gets level 1, else a
raw line starting with a hyphen gets level 2, every other line gets
level 0 and is rendered bold. -/
theorem claim2_amended_raw_line_classification (line : PyStr) :
    (py_startswith ['•'] line = true →
      (add_paragraph_line line).level = 1
        ∧ (add_paragraph_line line).bold = false) ∧
    (py_startswith ['•'] line = false → py_startswith ['-'] line = true →
      (add_paragraph_line line).level = 2
        ∧ (add_paragraph_line line).bold = false) ∧
    (py_startswith ['•'] line = false → py_startswith ['-'] line = false →
      (add_paragraph_line line).level = 0
        ∧ (add_paragraph_line line).bold = true) := by
  refine ⟨?_, ?_, ?_⟩
  · intro h1
    simp [add_paragraph_line, h1]
  · intro h1 h2
    simp [add_paragraph_line, h1, h2]
  · intro h1 h2
    simp [add_paragraph_line, h1, h2]

/-- Claim C2 amended witness: a line that starts with the bullet glyph
itself is classified level 1 and not bold. -/
theorem claim2_amended_witness :
    (add_paragraph_line (("• a").data)).level = 1
      ∧ (add_paragraph_line (("• a").data)).bold = false :=
  (claim2_amended_raw_line_classification (("• a").data)).1 (by decide)

/-- Claim C4: the split on the double line break produces one candidate
per separator-delimited segment, in order, and joining the candidates
back with the separator restores the original string exactly. -/
theorem claim4_partition_reconstruction (s : PyStr) :
    (pySplit2 '\n' '\n' s).length = pyCountSep2 '\n' '\n' s + 1 ∧
    pyJoin ['\n', '\n'] (pySplit2 '\n' '\n' s) = s :=
  ⟨length_pySplit2 '\n' '\n' s, pyJoin_pySplit2 '\n' '\n' s⟩

/-- Claim C5 counterexample: the paragraph text emitted for a line with
a leading space is not the original line, because create_content_slide
stores line.strip(). -/
theorem claim5_counterexample :
    (add_paragraph_line ((" hello").data)).text ≠ (" hello").data := by
  decide

/-- Claim C5 amended: classification itself never alters the content,
but the emitted paragraph text is the whitespace-stripped original
line, not the line itself; leading marker glyphs are preserved as-is by
the stripping. -/
theorem claim5_amended_strip_only (line : PyStr) :
    (add_paragraph_line line).text = pyStrip line ∧
    (py_startswith ['•'] line = true →
      py_startswith ['•'] ((add_paragraph_line line).text) = true) ∧
    (py_startswith ['-'] line = true →
      py_startswith ['-'] ((add_paragraph_line line).text) = true) := by
  refine ⟨text_add_paragraph_line line, ?_, ?_⟩
  · intro h
    rcases eq_cons_of_py_startswith '•' line h with ⟨t, ht⟩
    rcases exists_pyStrip_cons '•' (by decide) t with ⟨u, hu⟩
    rw [text_add_paragraph_line, ht, hu]
    simp [py_startswith, List.take_succ_cons]
  · intro h
    rcases eq_cons_of_py_startswith '-' line h with ⟨t, ht⟩
    rcases exists_pyStrip_cons '-' (by decide) t with ⟨u, hu⟩
    rw [text_add_paragraph_line, ht, hu]
    simp [py_startswith, List.take_succ_cons]

/-- Claim C5 amended witness: the bullet line keeps its glyph after
stripping. -/
theorem claim5_amended_witness :
    py_startswith ['•'] ((add_paragraph_line (("• a").data)).text) = true :=
  (claim5_amended_strip_only (("• a").data)).2.1 (by decide)

/-- Claim C3: when the content-generation call raises, generate_content
returns the formatted error string in place of content, puts that
string on the terminal-output queue, and is total, so no exception
escapes; when the formatted error string holds no double line break it
is the single candidate, and the assembled deck is the title slide plus
one content slide labeled Introduction holding it. -/
theorem claim3_generation_error_path (prompt agenda e : PyStr) :
    (generate_content prompt (Except.error e)).1
      = ("Error generating content: ").data ++ e ∧
    (generate_content prompt (Except.error e)).1
      ∈ (generate_content prompt (Except.error e)).2 ∧
    (pySplit2 '\n' '\n' (("Error generating content: ").data ++ e)
        = [("Error generating content: ").data ++ e] →
      generate_presentation agenda
          (generate_content prompt (Except.error e)).1
        = [Slide.title ('📊' :: ' ' :: agenda)
            (("An AI-Generated Presentation").data),
           create_content_slide (("Introduction").data)
            (("Error generating content: ").data ++ e)]) := by
  refine ⟨rfl, ?_, ?_⟩
  · simp [generate_content]
  · intro hsplit
    show Slide.title _ _ :: slidesLoop 0
        (pySplit2 '\n' '\n' (("Error generating content: ").data ++ e)) = _
    rw [hsplit]
    rfl

/-- Claim C3 witness: with the exception text boom, the error string
splits into a single candidate and the deck is exactly the title slide
plus one Introduction slide holding the error string. -/
theorem claim3_witness :
    pySplit2 '\n' '\n' (("Error generating content: ").data ++ ("boom").data)
      = [("Error generating content: ").data ++ ("boom").data] ∧
    generate_presentation (("T").data)
        (generate_content (("p").data) (Except.error (("boom").data))).1
      = [Slide.title ('📊' :: ' ' :: ("T").data)
          (("An AI-Generated Presentation").data),
         create_content_slide (("Introduction").data)
          (("Error generating content: ").data ++ ("boom").data)] :=
  ⟨by decide,
    (claim3_generation_error_path (("p").data) (("T").data)
      (("boom").data)).2.2 (by decide)⟩

/-- Claim C6: the assembler is deterministic: two runs on the same
agenda and the same content-source output give equal decks, hence the
same slide count and the same slides in the same order. -/
theorem claim6_determinism (agenda result : PyStr) (d1 d2 : List Slide)
    (h1 : d1 = generate_presentation agenda result)
    (h2 : d2 = generate_presentation agenda result) :
    d1 = d2 ∧ d1.length = d2.length := by
  subst h1
  subst h2
  exact ⟨rfl, rfl⟩

/-- Claim C6 witness: two runs on a concrete agenda and content are
equal. -/
theorem claim6_witness :
    generate_presentation (("T").data) (("a\n\nb").data)
        = generate_presentation (("T").data) (("a\n\nb").data) ∧
      (generate_presentation (("T").data) (("a\n\nb").data)).length
        = (generate_presentation (("T").data) (("a\n\nb").data)).length :=
  claim6_determinism (("T").data) (("a\n\nb").data)
    (generate_presentation (("T").data) (("a\n\nb").data))
    (generate_presentation (("T").data) (("a\n\nb").data)) rfl rfl

/-- Claim C7: the end-to-end scenario of the spec: for the agenda
Renewable Energy and the two-paragraph content block, the deck is the
decorated title slide, an Introduction slide with one level-0 bold
line, and an Agenda Overview slide with one level-1 line and one
level-2 line. -/
theorem claim7_end_to_end :
    generate_presentation (("Renewable Energy").data)
        (("Solar power is growing fast.\n\n• Wind farms expand\n- offshore costs drop").data)
      = [Slide.title (("📊 Renewable Energy").data)
          (("An AI-Generated Presentation").data),
         Slide.content (("Introduction").data)
          [⟨("Solar power is growing fast.").data, 0, true⟩],
         Slide.content (("Agenda Overview").data)
          [⟨("• Wind farms expand").data, 1, false⟩,
           ⟨("- offshore costs drop").data, 2, false⟩]] := by
  decide

/-- Claim C8: every color of the color_scheme table parses with
hex_to_rgb into an RGB triple whose components all lie between 0 and
255; the table is a constant definition, so it is never mutated. -/
theorem claim8_style_colors :
    hex_to_rgb (color_scheme Role.primary) = some (0, 112, 192) ∧
    hex_to_rgb (color_scheme Role.secondary) = some (255, 192, 0) ∧
    hex_to_rgb (color_scheme Role.text) = some (64, 64, 64) ∧
    hex_to_rgb (color_scheme Role.background) = some (248, 248, 248) ∧
    ∀ role : Role, ∃ r g b : Nat,
      hex_to_rgb (color_scheme role) = some (r, g, b)
        ∧ r ≤ 255 ∧ g ≤ 255 ∧ b ≤ 255 := by
  refine ⟨by decide, by decide, by decide, by decide, ?_⟩
  intro role
  cases role
  · exact ⟨0, 112, 192, by decide, by decide, by decide, by decide⟩
  · exact ⟨255, 192, 0, by decide, by decide, by decide, by decide⟩
  · exact ⟨64, 64, 64, by decide, by decide, by decide, by decide⟩
  · exact ⟨248, 248, 248, by decide, by decide, by decide, by decide⟩

/-- Claim C9: for every agenda and every content-source output, the
empty string included, the deck has at least two slides: splitting any
string on the double line break yields at least one candidate, so the
title slide is always followed by an Introduction content slide. -/
theorem claim9_min_two_slides (agenda result : PyStr) :
    2 ≤ (generate_presentation agenda result).length ∧
    ∃ body rest, generate_presentation agenda result
      = Slide.title ('📊' :: ' ' :: agenda)
          (("An AI-Generated Presentation").data)
        :: Slide.content (("Introduction").data) body :: rest := by
  cases hsp : pySplit2 '\n' '\n' result with
  | nil => exact absurd hsp (pySplit2_ne_nil '\n' '\n' result)
  | cons c0 cs =>
    have hdeck : generate_presentation agenda result
        = Slide.title ('📊' :: ' ' :: agenda)
            (("An AI-Generated Presentation").data)
          :: create_content_slide (("Introduction").data) c0
          :: slidesLoop 1 cs := by
      show Slide.title _ _ :: slidesLoop 0 (pySplit2 '\n' '\n' result) = _
      rw [hsp]
      show Slide.title _ _
          :: ([create_content_slide (slide_types.getD 0 []) c0]
            ++ slidesLoop 1 cs) = _
      rfl
    refine ⟨?_, (pySplit1 '\n' c0).map add_paragraph_line,
      slidesLoop 1 cs, ?_⟩
    · rw [hdeck]
      simp
    · rw [hdeck]
      rfl

/-- Claim C10: a body line made only of whitespace characters, the
empty line included, is emitted as a paragraph with empty text, indent
level 0 and the bold flag set. -/
theorem claim10_whitespace_line (line : PyStr)
    (h : ∀ c ∈ line, pyIsSpace c = true) :
    add_paragraph_line line = ⟨[], 0, true⟩ := by
  have hstrip : pyStrip line = [] := by
    unfold pyStrip pyDropLeft pyDropRight
    rw [List.dropWhile_eq_nil_iff.mpr h]
    rfl
  have hb : py_startswith ['•'] line = false := by
    cases line with
    | nil => decide
    | cons c rest =>
      have hc := h c (List.mem_cons_self c rest)
      simp only [py_startswith, List.length_cons, List.length_nil,
        List.take_succ_cons, List.take_zero, decide_eq_false_iff_not,
        List.cons.injEq, and_true]
      intro hceq
      rw [hceq] at hc
      exact absurd hc (by decide)
  have hd : py_startswith ['-'] line = false := by
    cases line with
    | nil => decide
    | cons c rest =>
      have hc := h c (List.mem_cons_self c rest)
      simp only [py_startswith, List.length_cons, List.length_nil,
        List.take_succ_cons, List.take_zero, decide_eq_false_iff_not,
        List.cons.injEq, and_true]
      intro hceq
      rw [hceq] at hc
      exact absurd hc (by decide)
  simp [add_paragraph_line, hb, hd, hstrip]

/-- Claim C10 witness: the two-space line yields the empty bold
level-0 paragraph. -/
theorem claim10_witness :
    add_paragraph_line (("  ").data) = ⟨[], 0, true⟩ :=
  claim10_whitespace_line (("  ").data) (by decide)
